import Mathlib

/-!
Shallow embedding of the thermal-control logic of the IPMI_Dell_Fan_UI
repository: the Dell monitoring loops (`dell_fan_control.py`,
`dell_fan_controller.py`), the temperature parsing, the fan-curve editor
(`FanCurveEditor`), and the HPE iLO HTTP backend (`hpe_fan_controller.py`).
Each definition is translated from the named Python function.
-/

namespace DellFan

/-- Python `\s` whitespace class used by `re.search(r'\|\s*(\d+)\s*degrees', line)`. -/
def isSpaceChar (c : Char) : Bool :=
  c = ' ' || c = '\t' || c = '\n' || c = '\r' || c = '\x0b' || c = '\x0c'

/-- Decimal value of a digit run, as Python `int(temp_match.group(1))`. -/
def digitsToNat (ds : List Char) : Nat :=
  ds.foldl (fun acc c => 10 * acc + (c.toNat - 48)) 0

/-- Whether `pre` is an initial segment of `l` (used for literal sub-pattern
matching and for Python substring containment). -/
def leadsWith : List Char → List Char → Bool
  | [], _ => true
  | _ :: _, [] => false
  | a :: as, b :: bs => a = b && leadsWith as bs

/-- Python `needle in hay` substring containment. -/
def containsSub (needle : List Char) : List Char → Bool
  | [] => leadsWith needle []
  | c :: t => leadsWith needle (c :: t) || containsSub needle t

/-- One attempted match of the regular expression `\|\s*(\d+)\s*degrees`
anchored at the head of `cs`.  The pattern is deterministic (whitespace,
digits and the literal `degrees` start with pairwise disjoint characters),
so greedy matching without backtracking is exact. -/
def matchDegreesAt (cs : List Char) : Option Nat :=
  match cs with
  | '|' :: rest =>
    let afterSp := rest.dropWhile isSpaceChar
    let digits := afterSp.takeWhile Char.isDigit
    if digits = [] then none
    else
      let afterNum := (afterSp.dropWhile Char.isDigit).dropWhile isSpaceChar
      if leadsWith "degrees".data afterNum then some (digitsToNat digits) else none
  | _ => none

/-- The search `re.search(r'\|\s*(\d+)\s*degrees', line)` followed by
`int(temp_match.group(1))`: first match anywhere in the line. -/
def searchDegrees : List Char → Option Nat
  | [] => none
  | c :: cs =>
    match matchDegreesAt (c :: cs) with
    | some n => some n
    | none => searchDegrees cs

/-- The test `'0Eh' in line or 'CPU' in line` — the CPU-sensor line filter of
`DellFanControllerUI.get_temperature` / `auto_monitoring_loop` /
`monitor_temperatures`. -/
def isCPULine (l : List Char) : Bool :=
  containsSub "0Eh".data l || containsSub "CPU".data l

/-- Temperature parsing of `DellFanControllerUI.auto_monitoring_loop`: scan
the stdout lines, and on the first CPU-sensor line whose reading matches the
regex, take that reading and `break`; lines matching the sensor filter but
not the regex are skipped. -/
def parseTempCPU : List String → Option Nat
  | [] => none
  | l :: ls =>
    if isCPULine l.data then
      match searchDegrees l.data with
      | some t => some t
      | none => parseTempCPU ls
    else parseTempCPU ls

/-- Temperature parsing of `DellFanController.monitoring_loop`
(`dell_fan_control.py`): same shape, but the sensor filter is
`self.temp_sensor.get() in line` for a configurable sensor token. -/
def parseTempTok (tok : String) : List String → Option Nat
  | [] => none
  | l :: ls =>
    if containsSub tok.data l.data then
      match searchDegrees l.data with
      | some t => some t
      | none => parseTempTok tok ls
    else parseTempTok tok ls

/-- The `max_temp` accumulation of `DellFanControllerUI.get_temperature` and
`monitor_temperatures`: `max_temp = 0`, then `max_temp = max(max_temp, temp)`
for every CPU-sensor line with a regex match. -/
def maxCPUTemp (lines : List String) : Nat :=
  lines.foldl
    (fun acc l =>
      if isCPULine l.data then
        match searchDegrees l.data with
        | some t => max acc t
        | none => acc
      else acc)
    0

/-- The method `DellFanControllerUI.get_temperature` reduced to its data flow: the
maximum CPU reading is reported only when `max_temp > 0`; otherwise the
method logs `No temperature data found` and reports nothing. -/
def getTemperature (lines : List String) : Option Nat :=
  let m := maxCPUTemp lines
  if m > 0 then some m else none

/-- The legacy bracket table shared verbatim by both monitoring loops:
`if current_temp < 30: 10 elif 30 <= current_temp <= 34: 20
elif 35 <= current_temp <= 39: 25 elif 40 <= current_temp <= 45: 30
else: 50`. -/
def legacyCurve (t : Int) : Int :=
  if t < 30 then 10
  else if 30 ≤ t ∧ t ≤ 34 then 20
  else if 35 ≤ t ∧ t ≤ 39 then 25
  else if 40 ≤ t ∧ t ≤ 45 then 30
  else 50

/-- Target fan state selected by a monitoring-loop iteration. -/
inductive FanMode : Type
  | automatic : FanMode
  | manual (speed : Int) : FanMode
deriving DecidableEq

/-- The decision step shared by both monitoring loops: `if current_temp >
threshold` issue the dynamic-control enable, else manual control at the
legacy bracket speed. -/
def decideAction (t h : Int) : FanMode :=
  if t > h then .automatic else .manual (legacyCurve t)

/-- Raw ipmitool writes issued by the monitoring loops. -/
inductive Cmd : Type
  /-- Command `raw 0x30 0x30 0x01 0x01` — enable dynamic (vendor-automatic) control. -/
  | rawEnableDynamic : Cmd
  /-- Command `raw 0x30 0x30 0x01 0x00` — disable dynamic control (manual mode). -/
  | rawDisableDynamic : Cmd
  /-- Command `raw 0x30 0x30 0x02 0xff <hex>` — set fan speed percent. -/
  | rawSetSpeed (pct : Int) : Cmd
deriving DecidableEq

/-- Log lines emitted by a monitoring-loop iteration. -/
inductive Log : Type
  /-- Line `✗ Failed to get temperature: ...` -/
  | failedGetTemp : Log
  /-- Line `Could not parse temperature` -/
  | couldNotParse : Log
  /-- Line `... Current temperature: T°C` -/
  | currentTempIs (t : Int) : Log
  /-- Line `Temperature above H°C - enabling dynamic control` -/
  | aboveThreshold (h : Int) : Log
  /-- Line `Temperature below H°C - using manual control` -/
  | belowThreshold (h : Int) : Log
  /-- Line `Setting fan speed to S%` -/
  | settingSpeed (s : Int) : Log
  /-- Line `✗ Error in auto monitoring: ...` — the `except` branch. -/
  | loopError : Log
deriving DecidableEq

/-- Failure reports among the loop's log lines: the read-failure line, the
parse-failure line and the exception line (all printed as errors by the
source). The apply writes have no corresponding failure line. -/
def isFailureLog : Log → Bool
  | .failedGetTemp => true
  | .couldNotParse => true
  | .loopError => true
  | _ => false

/-- Instance state of `DellFanControllerUI` touched by
`auto_monitoring_loop`: the running flag `self.monitoring`, and the tracked
`self.current_temp` / `self.current_fan_speed`. -/
structure UIState : Type where
  monitoring : Bool
  currentTemp : Option Int
  currentFanSpeed : Option Int
deriving DecidableEq

/-- Environment of one loop iteration: the result of
`int(self.temp_threshold_var.get())` (`none` = the call raises, landing in
the `except` branch), the outcome of the `sdr type temperature` read, its
stdout split into lines, and the success outcomes of the raw writes (the
source discards these return values). -/
structure Env : Type where
  thresholdVal : Option Int
  readOk : Bool
  stdoutLines : List String
  writeOk : Cmd → Bool

/-- Observable result of one iteration of a monitoring loop. -/
structure IterResult : Type where
  logs : List Log
  calls : List Cmd
  sleep : Nat
  state : UIState
  decision : Option FanMode
deriving DecidableEq

/-- One iteration of `DellFanControllerUI.auto_monitoring_loop`
(`dell_fan_controller.py`): parse the threshold, read and parse the
temperature (failures log and sleep 30), then either enable dynamic control
and sleep 60, or disable it, write the legacy bracket speed, record
`current_fan_speed`, and sleep 30.  The results of the raw writes are
discarded by the source, so `env.writeOk` is never consulted. -/
def autoMonitoringIteration (s : UIState) (env : Env) : IterResult :=
  match env.thresholdVal with
  | none =>
    { logs := [.loopError], calls := [], sleep := 30, state := s, decision := none }
  | some h =>
    if env.readOk then
      match parseTempCPU env.stdoutLines with
      | none =>
        { logs := [.couldNotParse], calls := [], sleep := 30, state := s, decision := none }
      | some t =>
        let s1 := { s with currentTemp := some (t : Int) }
        if (t : Int) > h then
          { logs := [.currentTempIs t, .aboveThreshold h]
            calls := [.rawEnableDynamic]
            sleep := 60
            state := s1
            decision := some .automatic }
        else
          let speed := legacyCurve t
          { logs := [.currentTempIs t, .belowThreshold h, .settingSpeed speed]
            calls := [.rawDisableDynamic, .rawSetSpeed speed]
            sleep := 30
            state := { s1 with currentFanSpeed := some speed }
            decision := some (.manual speed) }
    else
      { logs := [.failedGetTemp], calls := [], sleep := 30, state := s, decision := none }

/-- Observable result of one iteration of `DellFanController.monitoring_loop`,
which tracks no instance state. -/
structure CtlIterResult : Type where
  logs : List Log
  calls : List Cmd
  sleep : Nat
  decision : Option FanMode
deriving DecidableEq

/-- One iteration of `DellFanController.monitoring_loop`
(`dell_fan_control.py`): read and parse the temperature first (failures log
and sleep 30), then parse the threshold (`int(self.temp_threshold.get())`
inside the `try`, so a parse exception lands in the `except` branch), log
the temperature, then the same decision step.  The sensor filter token
`tok` is `self.temp_sensor.get()`.  The raw-write results are discarded by
the source, so `env.writeOk` is never consulted, and the speed write uses
the `fan_speeds` hex table, which is total on 0..100 and covers every
bracket speed. -/
def monitoringIteration (tok : String) (env : Env) : CtlIterResult :=
  if env.readOk then
    match parseTempTok tok env.stdoutLines with
    | none =>
      { logs := [.couldNotParse], calls := [], sleep := 30, decision := none }
    | some t =>
      match env.thresholdVal with
      | none =>
        { logs := [.loopError], calls := [], sleep := 30, decision := none }
      | some h =>
        if (t : Int) > h then
          { logs := [.currentTempIs t, .aboveThreshold h]
            calls := [.rawEnableDynamic]
            sleep := 60
            decision := some .automatic }
        else
          let speed := legacyCurve t
          { logs := [.currentTempIs t, .belowThreshold h, .settingSpeed speed]
            calls := [.rawDisableDynamic, .rawSetSpeed speed]
            sleep := 30
            decision := some (.manual speed) }
  else
    { logs := [.failedGetTemp], calls := [], sleep := 30, decision := none }

end DellFan

namespace HPE

/-- Outcome of one HTTP request (`hpe_fan_controller.py`): `some c` is a
response with status code `c`; `none` is a raised
`requests.exceptions.RequestException` (timeout, unreachable host, ...). -/
abbrev Resp := Option Nat

/-- HTTP requests issued by `HPEiLOController`. -/
inductive Req : Type
  /-- GET `/redfish/v1/Systems/1` (session creation / system info). -/
  | getSystems : Req
  /-- GET `/redfish/v1/Chassis/1/Thermal`. -/
  | getThermal : Req
  /-- PATCH `/redfish/v1/Managers/1/ThermalSubsystem/FanControl` with
  `{"FanControlMode": mode}`. -/
  | patchFanControlMode (mode : String) : Req
  /-- PATCH `/redfish/v1/Managers/1/ThermalSubsystem` with
  `{"ThermalProfile": profile}`. -/
  | patchThermalProfile (profile : String) : Req
deriving DecidableEq

/-- Log lines of the HPE controller; failure lines carry the surfaced
status code. -/
inductive HLog : Type
  /-- Line `✓ Session created successfully` -/
  | sessionOk : HLog
  /-- Line `✗ Authentication failed: c` -/
  | authFailed (c : Nat) : HLog
  /-- Line `✗ Connection failed: ...` (request exception). -/
  | connFailed : HLog
  /-- Line `✓ Fan control mode set to mode` -/
  | modeSetOk (mode : String) : HLog
  /-- Line `✗ Failed to set fan control mode: c` -/
  | modeSetFailed (c : Nat) : HLog
  /-- Line `✗ Error setting fan control mode: ...` (request exception). -/
  | modeSetError : HLog
  /-- Line `✓ Thermal profile set to profile` -/
  | profileSetOk (profile : String) : HLog
  /-- Line `✗ Failed to set thermal profile: c` -/
  | profileSetFailed (c : Nat) : HLog
  /-- Line `✗ Error setting thermal profile: ...` (request exception). -/
  | profileSetError : HLog
  /-- Line `✗ Failed to get thermal status: c` -/
  | thermalFailed (c : Nat) : HLog
deriving DecidableEq

/-- Method `HPEiLOController.create_session`, given the response to its GET on
`/redfish/v1/Systems/1`: success exactly on status 200. -/
def createSession (r : Resp) : Bool × List HLog :=
  match r with
  | some c => if c = 200 then (true, [.sessionOk]) else (false, [.authFailed c])
  | none => (false, [.connFailed])

/-- Method `HPEiLOController.get_thermal_status` core, given the response to its
GET on `/redfish/v1/Chassis/1/Thermal`: thermal data is returned exactly on
status 200 (`true` = data returned). -/
def getThermalStatus (r : Resp) : Bool × List HLog :=
  match r with
  | some c => if c = 200 then (true, []) else (false, [.thermalFailed c])
  | none => (false, [.connFailed])

/-- Method `HPEiLOController.set_fan_control_mode(mode)` core, given the response
to its PATCH: success exactly on `response.status_code in [200, 204]`. -/
def setFanControlMode (mode : String) (r : Resp) : Bool × List HLog :=
  match r with
  | some c =>
    if c = 200 ∨ c = 204 then (true, [.modeSetOk mode]) else (false, [.modeSetFailed c])
  | none => (false, [.modeSetError])

/-- Method `HPEiLOController.set_thermal_profile(profile)` core, given the response
to its PATCH: success exactly on `response.status_code in [200, 204]`. -/
def setThermalProfile (profile : String) (r : Resp) : Bool × List HLog :=
  match r with
  | some c =>
    if c = 200 ∨ c = 204 then (true, [.profileSetOk profile]) else (false, [.profileSetFailed c])
  | none => (false, [.profileSetError])

/-- Method `HPEiLOController.enable_automatic_control`: issue the
`FanControlMode=Automatic` patch and the `Performance` thermal-profile
patch (both are always attempted — no short-circuit), and return
`success1 or success2`. -/
def enableAutomaticControl (rMode rProfile : Resp) : Bool × List Req × List HLog :=
  let r1 := setFanControlMode "Automatic" rMode
  let r2 := setThermalProfile "Performance" rProfile
  (r1.1 || r2.1,
   [.patchFanControlMode "Automatic", .patchThermalProfile "Performance"],
   r1.2 ++ r2.2)

end HPE

namespace FanCurve

/-- A curve control point `(temperature, speed-percent)`. -/
abbrev Point := Int × Int

/-- The points `FanCurveEditor.__init__` starts from. -/
def curvePoints : List Point :=
  [(25, 10), (35, 25), (45, 40), (55, 60), (65, 80), (75, 100)]

/-- Comparison by temperature used by the editor's sorts. -/
def ptLE (p q : Point) : Prop := p.1 ≤ q.1

instance : DecidableRel ptLE := fun p q => Int.decLe p.1 q.1

instance : IsTotal Point ptLE := ⟨fun p q => Int.le_total p.1 q.1⟩

instance : IsTrans Point ptLE := ⟨fun _ _ _ h1 h2 => le_trans h1 h2⟩

/-- The sort `self.curve_points.sort(key=lambda x: x[0])` by temperature
performed by `FanCurveEditor.refresh_ui` after every edit, modelled as
insertion sort by temperature. -/
def sortByTemp (ps : List Point) : List Point :=
  List.insertionSort ptLE ps

/-- Method `FanCurveEditor.add_point`: append `(max(temps) + 5, 50)` (or `(30, 50)`
on an empty list), then `refresh_ui` sorts.  No clamping is applied to the
new temperature. -/
def addPoint (points : List Point) : List Point :=
  let newTemp : Int :=
    match points.map Prod.fst with
    | [] => 30
    | t :: ts => ts.foldl max t + 5
  sortByTemp (points ++ [(newTemp, 50)])

/-- Method `FanCurveEditor.update_point`: reject unless `0 <= temp <= 100` and
`0 <= speed <= 100` (error popup, list unchanged), else assign
`curve_points[index] = (temp, speed)` and `refresh_ui` sorts. -/
def updatePoint (points : List Point) (index : Nat) (t s : Int) : List Point :=
  if ¬ (0 ≤ t ∧ t ≤ 100) then points
  else if ¬ (0 ≤ s ∧ s ≤ 100) then points
  else sortByTemp (points.set index (t, s))

/-- Method `FanCurveEditor.remove_point`: refused (warning popup, list unchanged)
when at most 2 points remain, else `del curve_points[index]` and
`refresh_ui` sorts. -/
def removePoint (points : List Point) (index : Nat) : List Point :=
  if points.length ≤ 2 then points
  else sortByTemp (points.eraseIdx index)

/-- Method `FanCurveEditor.load_preset`: replace the list by a copy of the preset;
`refresh_ui` sorts. -/
def loadPreset (preset : List Point) : List Point :=
  sortByTemp preset

/-- The `Silent` preset of `FanCurveEditor.show_presets`. -/
def presetSilent : List Point := [(25, 5), (35, 15), (45, 25), (55, 35), (65, 50), (75, 70)]

/-- The `Balanced` preset of `FanCurveEditor.show_presets`. -/
def presetBalanced : List Point := [(25, 10), (35, 25), (45, 40), (55, 60), (65, 80), (75, 100)]

/-- The `Performance` preset of `FanCurveEditor.show_presets`. -/
def presetPerformance : List Point := [(25, 20), (35, 40), (45, 60), (55, 80), (65, 95), (75, 100)]

/-- The `Aggressive` preset of `FanCurveEditor.show_presets`. -/
def presetAggressive : List Point := [(25, 30), (35, 50), (45, 70), (55, 90), (65, 100), (75, 100)]

/-- Result of `FanCurveEditor.apply_curve`: whether it accepted the curve,
the points it logged (sorted), and the ipmitool commands it issued. -/
structure ApplyResult : Type where
  ok : Bool
  loggedPoints : List Point
  calls : List DellFan.Cmd
deriving DecidableEq

/-- Method `FanCurveEditor.apply_curve`: error if fewer than 2 points; otherwise it
only logs the sorted points and shows the message that actual curve
application `requires advanced iDRAC scripting and will be added in future
updates` — it invokes no ipmitool command, so `calls` is always empty. -/
def applyCurve (points : List Point) : ApplyResult :=
  if points.length < 2 then { ok := false, loggedPoints := [], calls := [] }
  else { ok := true, loggedPoints := sortByTemp points, calls := [] }

/-- The range admitted by `update_point`'s validation: temperature and
speed both within 0–100. -/
def inRange (p : Point) : Prop :=
  0 ≤ p.1 ∧ p.1 ≤ 100 ∧ 0 ≤ p.2 ∧ p.2 ≤ 100

instance (p : Point) : Decidable (inRange p) := by
  unfold inRange; infer_instance

/-- Speed of the last point with temperature at most `t`, starting from the
clamp value `cur` (helper of the spec-modelled `curveEval`). -/
def curveEvalAux (cur : Int) : List Point → Int → Int
  | [], _ => cur
  | q :: qs, t => if q.1 ≤ t then curveEvalAux q.2 qs t else cur

/-- Modelled from the spec: the FanCurve evaluation function `curve(T)` is
absent from the source (`apply_curve` defers it to `future updates`); this
follows the spec's words — step mapping over the points sorted ascending,
clamped to the first point's speed below the first temperature and to the
last point's speed above the last temperature. -/
def curveEval (points : List Point) (t : Int) : Int :=
  match sortByTemp points with
  | [] => 0
  | p :: rest => curveEvalAux p.2 rest t

end FanCurve

namespace DellFan

/-! Branch lemmas for the two monitoring-loop iterations. -/

lemma autoIter_thNone (s : UIState) (env : Env) (hth : env.thresholdVal = none) :
    autoMonitoringIteration s env = ⟨[.loopError], [], 30, s, none⟩ := by
  simp [autoMonitoringIteration, hth]

lemma autoIter_readFail (s : UIState) (env : Env) (h : Int)
    (hth : env.thresholdVal = some h) (hro : env.readOk = false) :
    autoMonitoringIteration s env = ⟨[.failedGetTemp], [], 30, s, none⟩ := by
  simp [autoMonitoringIteration, hth, hro]

lemma autoIter_parseFail (s : UIState) (env : Env) (h : Int)
    (hth : env.thresholdVal = some h) (hro : env.readOk = true)
    (hp : parseTempCPU env.stdoutLines = none) :
    autoMonitoringIteration s env = ⟨[.couldNotParse], [], 30, s, none⟩ := by
  simp [autoMonitoringIteration, hth, hro, hp]

lemma autoIter_hot (s : UIState) (env : Env) (t : Nat) (h : Int)
    (hth : env.thresholdVal = some h) (hro : env.readOk = true)
    (hp : parseTempCPU env.stdoutLines = some t) (hgt : (t : Int) > h) :
    autoMonitoringIteration s env =
      ⟨[.currentTempIs t, .aboveThreshold h], [.rawEnableDynamic], 60,
        { s with currentTemp := some (t : Int) }, some .automatic⟩ := by
  simp [autoMonitoringIteration, hth, hro, hp, hgt]

lemma autoIter_cool (s : UIState) (env : Env) (t : Nat) (h : Int)
    (hth : env.thresholdVal = some h) (hro : env.readOk = true)
    (hp : parseTempCPU env.stdoutLines = some t) (hle : ¬ (t : Int) > h) :
    autoMonitoringIteration s env =
      ⟨[.currentTempIs t, .belowThreshold h, .settingSpeed (legacyCurve t)],
        [.rawDisableDynamic, .rawSetSpeed (legacyCurve t)], 30,
        { s with currentTemp := some (t : Int), currentFanSpeed := some (legacyCurve t) },
        some (.manual (legacyCurve t))⟩ := by
  simp [autoMonitoringIteration, hth, hro, hp, hle]

lemma ctlIter_readFail (tok : String) (env : Env) (hro : env.readOk = false) :
    monitoringIteration tok env = ⟨[.failedGetTemp], [], 30, none⟩ := by
  simp [monitoringIteration, hro]

lemma ctlIter_parseFail (tok : String) (env : Env) (hro : env.readOk = true)
    (hp : parseTempTok tok env.stdoutLines = none) :
    monitoringIteration tok env = ⟨[.couldNotParse], [], 30, none⟩ := by
  simp [monitoringIteration, hro, hp]

lemma ctlIter_thNone (tok : String) (env : Env) (t : Nat) (hro : env.readOk = true)
    (hp : parseTempTok tok env.stdoutLines = some t) (hth : env.thresholdVal = none) :
    monitoringIteration tok env = ⟨[.loopError], [], 30, none⟩ := by
  simp [monitoringIteration, hro, hp, hth]

lemma ctlIter_hot (tok : String) (env : Env) (t : Nat) (h : Int) (hro : env.readOk = true)
    (hp : parseTempTok tok env.stdoutLines = some t) (hth : env.thresholdVal = some h)
    (hgt : (t : Int) > h) :
    monitoringIteration tok env =
      ⟨[.currentTempIs t, .aboveThreshold h], [.rawEnableDynamic], 60, some .automatic⟩ := by
  simp [monitoringIteration, hro, hp, hth, hgt]

lemma ctlIter_cool (tok : String) (env : Env) (t : Nat) (h : Int) (hro : env.readOk = true)
    (hp : parseTempTok tok env.stdoutLines = some t) (hth : env.thresholdVal = some h)
    (hle : ¬ (t : Int) > h) :
    monitoringIteration tok env =
      ⟨[.currentTempIs t, .belowThreshold h, .settingSpeed (legacyCurve t)],
        [.rawDisableDynamic, .rawSetSpeed (legacyCurve t)], 30,
        some (.manual (legacyCurve t))⟩ := by
  simp [monitoringIteration, hro, hp, hth, hle]

/-- The iteration never consults the raw-write outcomes: the source discards
the return values of the apply calls. -/
lemma autoIter_writeOk_irrel (s : UIState) (env : Env) (w : Cmd → Bool) :
    autoMonitoringIteration s { env with writeOk := w } = autoMonitoringIteration s env :=
  rfl

/-- Same for the `dell_fan_control.py` loop. -/
lemma ctlIter_writeOk_irrel (tok : String) (env : Env) (w : Cmd → Bool) :
    monitoringIteration tok { env with writeOk := w } = monitoringIteration tok env :=
  rfl

end DellFan

/-- C1: one iteration of the monitoring loop's decision step selects
Automatic (issuing the dynamic-control enable) iff T > H; otherwise it
selects Manual at the legacy bracket speed (T<30 gives 10, 30–34 gives 20,
35–39 gives 25, 40–45 gives 30, otherwise 50); with threshold 45,
decide 44 = Manual 30 and decide 46 = Automatic. -/
theorem c1_decision_policy :
    (∀ t h : Int, DellFan.decideAction t h = .automatic ↔ h < t) ∧
    (∀ t h : Int, ¬ h < t → DellFan.decideAction t h = .manual (DellFan.legacyCurve t)) ∧
    (∀ t : Int, t < 30 → DellFan.legacyCurve t = 10) ∧
    (∀ t : Int, 30 ≤ t → t ≤ 34 → DellFan.legacyCurve t = 20) ∧
    (∀ t : Int, 35 ≤ t → t ≤ 39 → DellFan.legacyCurve t = 25) ∧
    (∀ t : Int, 40 ≤ t → t ≤ 45 → DellFan.legacyCurve t = 30) ∧
    (∀ t : Int, 45 < t → DellFan.legacyCurve t = 50) ∧
    (∀ (s : DellFan.UIState) (env : DellFan.Env) (t : Nat) (h : Int),
      env.thresholdVal = some h → env.readOk = true →
      DellFan.parseTempCPU env.stdoutLines = some t →
      (DellFan.autoMonitoringIteration s env).decision = some (DellFan.decideAction t h) ∧
      ((t : Int) > h →
        (DellFan.autoMonitoringIteration s env).calls = [.rawEnableDynamic])) ∧
    (∀ (tok : String) (env : DellFan.Env) (t : Nat) (h : Int),
      env.readOk = true → DellFan.parseTempTok tok env.stdoutLines = some t →
      env.thresholdVal = some h →
      (DellFan.monitoringIteration tok env).decision = some (DellFan.decideAction t h)) ∧
    DellFan.decideAction 44 45 = .manual 30 ∧
    DellFan.decideAction 46 45 = .automatic := by
  refine ⟨?_, ?_, ?_, ?_, ?_, ?_, ?_, ?_, ?_, by decide, by decide⟩
  · intro t h
    simp only [DellFan.decideAction]
    split
    case isTrue hc => simp [hc]
    case isFalse hc => simp [hc]
  · intro t h hc
    simp [DellFan.decideAction, hc]
  · intro t ht; unfold DellFan.legacyCurve; omega
  · intro t h1 h2; unfold DellFan.legacyCurve; omega
  · intro t h1 h2; unfold DellFan.legacyCurve; omega
  · intro t h1 h2; unfold DellFan.legacyCurve; omega
  · intro t ht; unfold DellFan.legacyCurve; omega
  · intro s env t h hth hro hp
    by_cases hgt : (t : Int) > h
    · rw [DellFan.autoIter_hot s env t h hth hro hp hgt]
      exact ⟨by simp [DellFan.decideAction, hgt], fun _ => rfl⟩
    · rw [DellFan.autoIter_cool s env t h hth hro hp hgt]
      exact ⟨by simp [DellFan.decideAction, hgt], fun h' => absurd h' hgt⟩
  · intro tok env t h hro hp hth
    by_cases hgt : (t : Int) > h
    · rw [DellFan.ctlIter_hot tok env t h hro hp hth hgt]
      simp [DellFan.decideAction, hgt]
    · rw [DellFan.ctlIter_cool tok env t h hro hp hth hgt]
      simp [DellFan.decideAction, hgt]

/-- Witness for C1: a concrete cool iteration (T = 44, H = 45) decides as
`decideAction` says. -/
theorem c1_decision_policy_witness :
    (DellFan.autoMonitoringIteration ⟨true, none, none⟩
        ⟨some 45, true, ["CPU1 Temp | 44 degrees C"], fun _ => true⟩).decision
      = some (DellFan.decideAction 44 45) :=
  (c1_decision_policy.2.2.2.2.2.2.2.1 ⟨true, none, none⟩
      ⟨some 45, true, ["CPU1 Temp | 44 degrees C"], fun _ => true⟩ 44 45 rfl rfl (by decide)).1

/-- C2 counterexample: with unchanged inputs (T = 25, H = 45) a second
iteration, whose computed target `Manual 10` equals the state the first
iteration just applied and recorded, still issues both vendor writes — the
loop never compares against a last-applied state. -/
theorem c2_second_iteration_still_writes :
    (DellFan.autoMonitoringIteration ⟨true, none, none⟩
        ⟨some 45, true, ["CPU1 Temp | 25 degrees C"], fun _ => true⟩).decision
      = some (.manual 10) ∧
    (DellFan.autoMonitoringIteration ⟨true, none, none⟩
        ⟨some 45, true, ["CPU1 Temp | 25 degrees C"], fun _ => true⟩).state.currentFanSpeed
      = some 10 ∧
    (DellFan.autoMonitoringIteration
        ((DellFan.autoMonitoringIteration ⟨true, none, none⟩
          ⟨some 45, true, ["CPU1 Temp | 25 degrees C"], fun _ => true⟩).state)
        ⟨some 45, true, ["CPU1 Temp | 25 degrees C"], fun _ => true⟩).calls
      = [.rawDisableDynamic, .rawSetSpeed 10] ∧
    ¬ (DellFan.autoMonitoringIteration
        ((DellFan.autoMonitoringIteration ⟨true, none, none⟩
          ⟨some 45, true, ["CPU1 Temp | 25 degrees C"], fun _ => true⟩).state)
        ⟨some 45, true, ["CPU1 Temp | 25 degrees C"], fun _ => true⟩).calls
      = [] := by
  decide

/-- C2 amended: the loops keep no last-applied state, so vendor writes are
issued on every successful poll regardless of the previous iteration: the
issued calls (and decision) are independent of the tracked state, every
Automatic poll issues exactly the enable write, and every Manual poll
issues exactly the mode write and the speed write. -/
theorem c2_every_poll_writes :
    (∀ (s s' : DellFan.UIState) (env : DellFan.Env),
      (DellFan.autoMonitoringIteration s env).calls
        = (DellFan.autoMonitoringIteration s' env).calls ∧
      (DellFan.autoMonitoringIteration s env).decision
        = (DellFan.autoMonitoringIteration s' env).decision) ∧
    (∀ (s : DellFan.UIState) (env : DellFan.Env) (t : Nat) (h : Int),
      env.thresholdVal = some h → env.readOk = true →
      DellFan.parseTempCPU env.stdoutLines = some t →
      ((t : Int) > h →
        (DellFan.autoMonitoringIteration s env).calls = [.rawEnableDynamic]) ∧
      (¬ (t : Int) > h →
        (DellFan.autoMonitoringIteration s env).calls
          = [.rawDisableDynamic, .rawSetSpeed (DellFan.legacyCurve t)])) ∧
    (∀ (tok : String) (env : DellFan.Env) (t : Nat) (h : Int),
      env.readOk = true → DellFan.parseTempTok tok env.stdoutLines = some t →
      env.thresholdVal = some h →
      ((t : Int) > h →
        (DellFan.monitoringIteration tok env).calls = [.rawEnableDynamic]) ∧
      (¬ (t : Int) > h →
        (DellFan.monitoringIteration tok env).calls
          = [.rawDisableDynamic, .rawSetSpeed (DellFan.legacyCurve t)])) := by
  refine ⟨?_, ?_, ?_⟩
  · intro s s' env
    rcases hth : env.thresholdVal with _ | h
    · rw [DellFan.autoIter_thNone s env hth, DellFan.autoIter_thNone s' env hth]
      exact ⟨rfl, rfl⟩
    · rcases hro : env.readOk with _ | _
      · rw [DellFan.autoIter_readFail s env h hth hro,
          DellFan.autoIter_readFail s' env h hth hro]
        exact ⟨rfl, rfl⟩
      · rcases hp : DellFan.parseTempCPU env.stdoutLines with _ | t
        · rw [DellFan.autoIter_parseFail s env h hth hro hp,
            DellFan.autoIter_parseFail s' env h hth hro hp]
          exact ⟨rfl, rfl⟩
        · by_cases hgt : (t : Int) > h
          · rw [DellFan.autoIter_hot s env t h hth hro hp hgt,
              DellFan.autoIter_hot s' env t h hth hro hp hgt]
            exact ⟨rfl, rfl⟩
          · rw [DellFan.autoIter_cool s env t h hth hro hp hgt,
              DellFan.autoIter_cool s' env t h hth hro hp hgt]
            exact ⟨rfl, rfl⟩
  · intro s env t h hth hro hp
    constructor
    · intro hgt; rw [DellFan.autoIter_hot s env t h hth hro hp hgt]
    · intro hle; rw [DellFan.autoIter_cool s env t h hth hro hp hle]
  · intro tok env t h hro hp hth
    constructor
    · intro hgt; rw [DellFan.ctlIter_hot tok env t h hro hp hth hgt]
    · intro hle; rw [DellFan.ctlIter_cool tok env t h hro hp hth hle]

/-- Witness for C2 (amended): a concrete cool poll issues exactly the two
vendor writes. -/
theorem c2_every_poll_writes_witness :
    (DellFan.autoMonitoringIteration ⟨true, none, none⟩
        ⟨some 45, true, ["CPU1 Temp | 25 degrees C"], fun _ => true⟩).calls
      = [.rawDisableDynamic, .rawSetSpeed (DellFan.legacyCurve 25)] :=
  (c2_every_poll_writes.2.1 ⟨true, none, none⟩
      ⟨some 45, true, ["CPU1 Temp | 25 degrees C"], fun _ => true⟩ 25 45 rfl rfl
      (by decide)).2 (by decide)

/-- C3 counterexample: above the highest bracket the Manual branch applies
the safety default 50, not the highest bracket's speed 30 — at T = 46 with
threshold 60 the loop selects `Manual 50`. -/
theorem c3_above_brackets_gives_fifty :
    DellFan.legacyCurve 46 = 50 ∧
    ¬ DellFan.legacyCurve 46 = 30 ∧
    (DellFan.autoMonitoringIteration ⟨true, none, none⟩
        ⟨some 60, true, ["CPU1 Temp | 46 degrees C"], fun _ => true⟩).decision
      = some (.manual 50) := by
  decide

/-- C3 amended: the bracket mapping is total (always one of 10, 20, 25, 30,
50); below the lowest bracket every temperature gets the lowest bracket's
speed 10; but above the highest bracket every temperature gets the safety
default 50 — not the highest bracket's 30 — and a Manual-branch iteration
with T above 45 applies 50. -/
theorem c3_curve_total_and_clamped :
    (∀ t : Int, DellFan.legacyCurve t = 10 ∨ DellFan.legacyCurve t = 20 ∨
      DellFan.legacyCurve t = 25 ∨ DellFan.legacyCurve t = 30 ∨
      DellFan.legacyCurve t = 50) ∧
    (∀ t : Int, t < 30 → DellFan.legacyCurve t = 10) ∧
    (∀ t : Int, 45 < t → DellFan.legacyCurve t = 50) ∧
    (∀ (s : DellFan.UIState) (env : DellFan.Env) (t : Nat) (h : Int),
      env.thresholdVal = some h → env.readOk = true →
      DellFan.parseTempCPU env.stdoutLines = some t →
      ¬ (t : Int) > h → 45 < (t : Int) →
      (DellFan.autoMonitoringIteration s env).decision = some (.manual 50)) := by
  refine ⟨?_, ?_, ?_, ?_⟩
  · intro t; unfold DellFan.legacyCurve
    split
    · exact Or.inl rfl
    split
    · exact Or.inr (Or.inl rfl)
    split
    · exact Or.inr (Or.inr (Or.inl rfl))
    split
    · exact Or.inr (Or.inr (Or.inr (Or.inl rfl)))
    · exact Or.inr (Or.inr (Or.inr (Or.inr rfl)))
  · intro t ht; unfold DellFan.legacyCurve; omega
  · intro t ht; unfold DellFan.legacyCurve; omega
  · intro s env t h hth hro hp hle hgt45
    rw [DellFan.autoIter_cool s env t h hth hro hp hle]
    have : DellFan.legacyCurve t = 50 := by
      unfold DellFan.legacyCurve; omega
    simp [this]

/-- Witness for C3 (amended): a concrete Manual-branch iteration at T = 50,
H = 60 applies the default 50. -/
theorem c3_curve_total_and_clamped_witness :
    (DellFan.autoMonitoringIteration ⟨true, none, none⟩
        ⟨some 60, true, ["CPU1 Temp | 50 degrees C"], fun _ => true⟩).decision
      = some (.manual 50) :=
  c3_curve_total_and_clamped.2.2.2 ⟨true, none, none⟩
    ⟨some 60, true, ["CPU1 Temp | 50 degrees C"], fun _ => true⟩ 50 60 rfl rfl
    (by decide) (by decide) (by decide)

/-- C6: an iteration that selects Automatic sleeps 60 seconds before the
next poll; an iteration that selects Manual sleeps 30 seconds — in both
monitoring loops. -/
theorem c6_interval_selection :
    (∀ (s : DellFan.UIState) (env : DellFan.Env),
      ((DellFan.autoMonitoringIteration s env).decision = some .automatic →
        (DellFan.autoMonitoringIteration s env).sleep = 60) ∧
      (∀ sp : Int,
        (DellFan.autoMonitoringIteration s env).decision = some (.manual sp) →
        (DellFan.autoMonitoringIteration s env).sleep = 30)) ∧
    (∀ (tok : String) (env : DellFan.Env),
      ((DellFan.monitoringIteration tok env).decision = some .automatic →
        (DellFan.monitoringIteration tok env).sleep = 60) ∧
      (∀ sp : Int,
        (DellFan.monitoringIteration tok env).decision = some (.manual sp) →
        (DellFan.monitoringIteration tok env).sleep = 30)) := by
  constructor
  · intro s env
    rcases hth : env.thresholdVal with _ | h
    · rw [DellFan.autoIter_thNone s env hth]; simp
    · rcases hro : env.readOk with _ | _
      · rw [DellFan.autoIter_readFail s env h hth hro]; simp
      · rcases hp : DellFan.parseTempCPU env.stdoutLines with _ | t
        · rw [DellFan.autoIter_parseFail s env h hth hro hp]; simp
        · by_cases hgt : (t : Int) > h
          · rw [DellFan.autoIter_hot s env t h hth hro hp hgt]; simp
          · rw [DellFan.autoIter_cool s env t h hth hro hp hgt]; simp
  · intro tok env
    rcases hro : env.readOk with _ | _
    · rw [DellFan.ctlIter_readFail tok env hro]; simp
    · rcases hp : DellFan.parseTempTok tok env.stdoutLines with _ | t
      · rw [DellFan.ctlIter_parseFail tok env hro hp]; simp
      · rcases hth : env.thresholdVal with _ | h
        · rw [DellFan.ctlIter_thNone tok env t hro hp hth]; simp
        · by_cases hgt : (t : Int) > h
          · rw [DellFan.ctlIter_hot tok env t h hro hp hth hgt]; simp
          · rw [DellFan.ctlIter_cool tok env t h hro hp hth hgt]; simp

/-- Witness for C6: a concrete Automatic iteration sleeps 60. -/
theorem c6_interval_selection_witness :
    (DellFan.autoMonitoringIteration ⟨true, none, none⟩
        ⟨some 45, true, ["CPU1 Temp | 46 degrees C"], fun _ => true⟩).sleep = 60 :=
  (c6_interval_selection.1 ⟨true, none, none⟩
      ⟨some 45, true, ["CPU1 Temp | 46 degrees C"], fun _ => true⟩).1 (by decide)

/-- C8 counterexample: an iteration whose raw writes all fail (apply
failure) logs no failure line at all — the write results are discarded —
and still updates the tracked fan speed to the computed value. -/
theorem c8_apply_failure_silent :
    ((DellFan.autoMonitoringIteration ⟨true, none, none⟩
        ⟨some 45, true, ["CPU1 Temp | 25 degrees C"], fun _ => false⟩).logs
      = [.currentTempIs 25, .belowThreshold 45, .settingSpeed 10]) ∧
    ((DellFan.autoMonitoringIteration ⟨true, none, none⟩
        ⟨some 45, true, ["CPU1 Temp | 25 degrees C"], fun _ => false⟩).logs.all
        (fun m => ! DellFan.isFailureLog m) = true) ∧
    ((DellFan.autoMonitoringIteration ⟨true, none, none⟩
        ⟨some 45, true, ["CPU1 Temp | 25 degrees C"], fun _ => false⟩).state.currentFanSpeed
      = some 10) := by
  decide

/-- C8 amended: read failures, parse failures and raised exceptions are
logged, leave the running flag and the fan state untouched, issue no vendor
call, and the loop continues to the next poll; the running flag is never
cleared by an iteration, so only an explicit stop terminates the loop.
Apply failures also never terminate or change control flow — the iteration
is entirely independent of the write outcomes — but they are not logged,
and the tracked fan speed is updated regardless of the write outcome. -/
theorem c8_failures_nonfatal :
    (∀ (s : DellFan.UIState) (env : DellFan.Env),
      (DellFan.autoMonitoringIteration s env).state.monitoring = s.monitoring) ∧
    (∀ (s : DellFan.UIState) (env : DellFan.Env),
      env.thresholdVal = none →
      DellFan.autoMonitoringIteration s env = ⟨[.loopError], [], 30, s, none⟩) ∧
    (∀ (s : DellFan.UIState) (env : DellFan.Env) (h : Int),
      env.thresholdVal = some h → env.readOk = false →
      DellFan.autoMonitoringIteration s env = ⟨[.failedGetTemp], [], 30, s, none⟩) ∧
    (∀ (s : DellFan.UIState) (env : DellFan.Env) (h : Int),
      env.thresholdVal = some h → env.readOk = true →
      DellFan.parseTempCPU env.stdoutLines = none →
      DellFan.autoMonitoringIteration s env = ⟨[.couldNotParse], [], 30, s, none⟩) ∧
    (∀ (s : DellFan.UIState) (env : DellFan.Env) (w w' : DellFan.Cmd → Bool),
      DellFan.autoMonitoringIteration s { env with writeOk := w }
        = DellFan.autoMonitoringIteration s { env with writeOk := w' }) ∧
    (∀ (tok : String) (env : DellFan.Env),
      env.readOk = false →
      DellFan.monitoringIteration tok env = ⟨[.failedGetTemp], [], 30, none⟩) ∧
    (∀ (tok : String) (env : DellFan.Env),
      env.readOk = true → DellFan.parseTempTok tok env.stdoutLines = none →
      DellFan.monitoringIteration tok env = ⟨[.couldNotParse], [], 30, none⟩) ∧
    (∀ (tok : String) (env : DellFan.Env) (w w' : DellFan.Cmd → Bool),
      DellFan.monitoringIteration tok { env with writeOk := w }
        = DellFan.monitoringIteration tok { env with writeOk := w' }) := by
  refine ⟨?_, DellFan.autoIter_thNone, DellFan.autoIter_readFail,
    DellFan.autoIter_parseFail, ?_, DellFan.ctlIter_readFail,
    DellFan.ctlIter_parseFail, ?_⟩
  · intro s env
    rcases hth : env.thresholdVal with _ | h
    · rw [DellFan.autoIter_thNone s env hth]
    · rcases hro : env.readOk with _ | _
      · rw [DellFan.autoIter_readFail s env h hth hro]
      · rcases hp : DellFan.parseTempCPU env.stdoutLines with _ | t
        · rw [DellFan.autoIter_parseFail s env h hth hro hp]
        · by_cases hgt : (t : Int) > h
          · rw [DellFan.autoIter_hot s env t h hth hro hp hgt]
          · rw [DellFan.autoIter_cool s env t h hth hro hp hgt]
  · intro s env w w'
    exact (DellFan.autoIter_writeOk_irrel s env w).trans
      (DellFan.autoIter_writeOk_irrel s env w').symm
  · intro tok env w w'
    exact (DellFan.ctlIter_writeOk_irrel tok env w).trans
      (DellFan.ctlIter_writeOk_irrel tok env w').symm

/-- Witness for C8 (amended): a concrete read failure logs, keeps the state
and running flag, issues no call, and sleeps 30. -/
theorem c8_failures_nonfatal_witness :
    DellFan.autoMonitoringIteration ⟨true, some 40, some 20⟩
        ⟨some 45, false, [], fun _ => true⟩
      = ⟨[.failedGetTemp], [], 30, ⟨true, some 40, some 20⟩, none⟩ :=
  c8_failures_nonfatal.2.2.1 ⟨true, some 40, some 20⟩
    ⟨some 45, false, [], fun _ => true⟩ 45 rfl rfl

/-- Helper for C9: if every CPU-sensor line reads 0, the `max_temp`
accumulation of `get_temperature` stays at its start value. -/
lemma foldl_maxCPU_all_zero (lines : List String) :
    (∀ l ∈ lines, DellFan.isCPULine l.data = true →
      ∀ t, DellFan.searchDegrees l.data = some t → t = 0) →
    ∀ acc : Nat,
      lines.foldl
        (fun acc l =>
          if DellFan.isCPULine l.data then
            match DellFan.searchDegrees l.data with
            | some t => max acc t
            | none => acc
          else acc)
        acc = acc := by
  induction lines with
  | nil => intro _ acc; rfl
  | cons l ls ih =>
    intro hz acc
    rw [List.foldl_cons]
    have hstep :
        (if DellFan.isCPULine l.data then
          match DellFan.searchDegrees l.data with
          | some t => max acc t
          | none => acc
        else acc) = acc := by
      rcases hc : DellFan.isCPULine l.data with _ | _
      · simp [hc]
      · rcases hs : DellFan.searchDegrees l.data with _ | t
        · simp [hc, hs]
        · have ht : t = 0 := hz l (List.mem_cons_self l ls) hc t hs
          simp [hc, hs, ht]
    rw [hstep]
    exact ih (fun l' hl' => hz l' (List.mem_cons_of_mem l hl')) acc

/-- C9: in the Dell temperature-reading path the representative value is a
maximum starting from 0 over CPU-sensor lines, reported only when strictly
positive; an input in which every CPU sensor reads 0°C is therefore
reported as no temperature data (`none`), exactly like an input with no
sensor data at all. -/
theorem c9_all_zero_reads_as_no_data :
    ∀ lines : List String,
      (∀ l ∈ lines, DellFan.isCPULine l.data = true →
        ∀ t, DellFan.searchDegrees l.data = some t → t = 0) →
      DellFan.getTemperature lines = none ∧
      DellFan.getTemperature lines = DellFan.getTemperature [] := by
  intro lines hz
  have hmax : DellFan.maxCPUTemp lines = 0 :=
    foldl_maxCPU_all_zero lines hz 0
  unfold DellFan.getTemperature
  rw [hmax]
  exact ⟨rfl, rfl⟩

/-- Witness for C9: a concrete sensor dump whose only CPU line reads 0 is
reported as no data. -/
theorem c9_all_zero_reads_as_no_data_witness :
    DellFan.getTemperature ["CPU1 Temp | 0 degrees C", "Ambient | 22 degrees C"] = none :=
  (c9_all_zero_reads_as_no_data
    ["CPU1 Temp | 0 degrees C", "Ambient | 22 degrees C"] (by decide)).1

/-- C5: enabling automatic mode on the HPE backend issues exactly the
`FanControlMode=Automatic` patch and the `Performance` thermal-profile
patch, and reports success iff at least one of the two responses is a
success (status 200 or 204). -/
theorem c5_enable_automatic_leniency :
    ∀ r1 r2 : HPE.Resp,
      (HPE.enableAutomaticControl r1 r2).2.1
        = [.patchFanControlMode "Automatic", .patchThermalProfile "Performance"] ∧
      (HPE.enableAutomaticControl r1 r2).2.1.length = 2 ∧
      ((HPE.enableAutomaticControl r1 r2).1 = true ↔
        ((∃ c, r1 = some c ∧ (c = 200 ∨ c = 204)) ∨
         (∃ c, r2 = some c ∧ (c = 200 ∨ c = 204)))) := by
  intro r1 r2
  refine ⟨rfl, rfl, ?_⟩
  rcases r1 with _ | c1
  · rcases r2 with _ | c2
    · simp [HPE.enableAutomaticControl, HPE.setFanControlMode, HPE.setThermalProfile]
    · by_cases h2 : c2 = 200 ∨ c2 = 204 <;>
        simp [HPE.enableAutomaticControl, HPE.setFanControlMode, HPE.setThermalProfile, h2]
  · rcases r2 with _ | c2
    · by_cases h1 : c1 = 200 ∨ c1 = 204 <;>
        simp [HPE.enableAutomaticControl, HPE.setFanControlMode, HPE.setThermalProfile, h1]
    · by_cases h1 : c1 = 200 ∨ c1 = 204 <;>
        by_cases h2 : c2 = 200 ∨ c2 = 204 <;>
        simp [HPE.enableAutomaticControl, HPE.setFanControlMode, HPE.setThermalProfile, h1, h2]

/-- C7 counterexample: session creation (a GET) treats a 204 response as a
failure, so it is not true that every HTTP call reports success iff the
status is 200 or 204. -/
theorem c7_get_204_is_failure :
    (HPE.createSession (some 204)).1 = false ∧
    ¬ ((HPE.createSession (some 204)).1 = true ↔ (204 = 200 ∨ 204 = 204)) := by
  decide

/-- C7 amended: the PATCH calls (set fan control mode, set thermal profile)
report success iff the status is 200 or 204, while the GET-based calls
(create session, get thermal status) report success iff the status is
exactly 200; every non-success status is reported as failure with the
status code surfaced in the diagnostic log line, and a transport exception
is failure. -/
theorem c7_http_status_semantics :
    (∀ (m : String) (c : Nat),
      ((HPE.setFanControlMode m (some c)).1 = true ↔ (c = 200 ∨ c = 204))) ∧
    (∀ (m : String) (c : Nat), ¬ (c = 200 ∨ c = 204) →
      (HPE.setFanControlMode m (some c)).2 = [.modeSetFailed c]) ∧
    (∀ (p : String) (c : Nat),
      ((HPE.setThermalProfile p (some c)).1 = true ↔ (c = 200 ∨ c = 204))) ∧
    (∀ (p : String) (c : Nat), ¬ (c = 200 ∨ c = 204) →
      (HPE.setThermalProfile p (some c)).2 = [.profileSetFailed c]) ∧
    (∀ c : Nat, ((HPE.createSession (some c)).1 = true ↔ c = 200)) ∧
    (∀ c : Nat, ¬ c = 200 → (HPE.createSession (some c)).2 = [.authFailed c]) ∧
    (∀ c : Nat, ((HPE.getThermalStatus (some c)).1 = true ↔ c = 200)) ∧
    (∀ c : Nat, ¬ c = 200 → (HPE.getThermalStatus (some c)).2 = [.thermalFailed c]) ∧
    (∀ m : String, (HPE.setFanControlMode m none).1 = false) ∧
    (∀ p : String, (HPE.setThermalProfile p none).1 = false) ∧
    (HPE.createSession none).1 = false := by
  refine ⟨?_, ?_, ?_, ?_, ?_, ?_, ?_, ?_, fun _ => rfl, fun _ => rfl, rfl⟩
  · intro m c; by_cases h : c = 200 ∨ c = 204 <;> simp [HPE.setFanControlMode, h]
  · intro m c h; simp [HPE.setFanControlMode, h]
  · intro p c; by_cases h : c = 200 ∨ c = 204 <;> simp [HPE.setThermalProfile, h]
  · intro p c h; simp [HPE.setThermalProfile, h]
  · intro c; by_cases h : c = 200 <;> simp [HPE.createSession, h]
  · intro c h; simp [HPE.createSession, h]
  · intro c; by_cases h : c = 200 <;> simp [HPE.getThermalStatus, h]
  · intro c h; simp [HPE.getThermalStatus, h]

/-- Witness for C7 (amended): a 500 on the fan-control-mode PATCH is logged
as a failure with the status code surfaced. -/
theorem c7_http_status_semantics_witness :
    (HPE.setFanControlMode "Manual" (some 500)).2 = [.modeSetFailed 500] :=
  c7_http_status_semantics.2.1 "Manual" 500 (by decide)

namespace FanCurve

/-! Helper lemmas about the editor's sort. -/

lemma sortByTemp_perm (l : List Point) : List.Perm (sortByTemp l) l :=
  List.perm_insertionSort ptLE l

lemma sortByTemp_length (l : List Point) : (sortByTemp l).length = l.length :=
  (sortByTemp_perm l).length_eq

lemma sortByTemp_sorted (l : List Point) : (sortByTemp l).Sorted ptLE :=
  List.sorted_insertionSort ptLE l

lemma mem_sortByTemp {x : Point} {l : List Point} : x ∈ sortByTemp l ↔ x ∈ l :=
  (sortByTemp_perm l).mem_iff

lemma length_eraseIdx_ge (l : List Point) (i : Nat) :
    l.length - 1 ≤ (l.eraseIdx i).length := by
  induction l generalizing i with
  | nil => simp
  | cons a l ih =>
    cases i with
    | zero => simp [List.eraseIdx]
    | succ i =>
      have := ih i
      simp only [List.eraseIdx, List.length_cons]
      omega

end FanCurve

/-- C10 counterexample: starting from the editor's initial points, the
legitimate edit sequence `update_point 5 100 100` (accepted by validation)
followed by `add_point` stores the point `(105, 50)`, whose temperature
exceeds 100 — `add_point` appends `(max(temps) + 5, 50)` with no clamping,
so the claimed every-point-in-[0,100] invariant fails. -/
theorem c10_add_point_exceeds_range :
    (105, 50) ∈ FanCurve.addPoint (FanCurve.updatePoint FanCurve.curvePoints 5 100 100) ∧
    ¬ ((105 : Int) ≤ 100) := by
  decide

/-- C10 amended: after every editing operation the list keeps at least 2
points and is sorted non-decreasing by temperature, and `remove_point` is
refused (list unchanged) when at most 2 points remain; `update_point` and
the presets also keep every stored point within [0,100], but `add_point`
appends `(max(temps) + 5, 50)` without clamping, so it does not preserve
the range bound. -/
theorem c10_editor_invariants :
    (∀ (pts : List FanCurve.Point) (idx : Nat) (t s : Int),
      (2 ≤ pts.length → 2 ≤ (FanCurve.updatePoint pts idx t s).length) ∧
      (pts.Sorted FanCurve.ptLE → (FanCurve.updatePoint pts idx t s).Sorted FanCurve.ptLE) ∧
      ((∀ p ∈ pts, FanCurve.inRange p) →
        ∀ p ∈ FanCurve.updatePoint pts idx t s, FanCurve.inRange p)) ∧
    (∀ (pts : List FanCurve.Point) (idx : Nat),
      (2 ≤ pts.length → 2 ≤ (FanCurve.removePoint pts idx).length) ∧
      (pts.Sorted FanCurve.ptLE → (FanCurve.removePoint pts idx).Sorted FanCurve.ptLE) ∧
      ((∀ p ∈ pts, FanCurve.inRange p) →
        ∀ p ∈ FanCurve.removePoint pts idx, FanCurve.inRange p)) ∧
    (∀ pts : List FanCurve.Point,
      (2 ≤ pts.length → 2 ≤ (FanCurve.addPoint pts).length) ∧
      (FanCurve.addPoint pts).Sorted FanCurve.ptLE) ∧
    (∀ (pts : List FanCurve.Point) (idx : Nat),
      pts.length ≤ 2 → FanCurve.removePoint pts idx = pts) ∧
    (2 ≤ (FanCurve.loadPreset FanCurve.presetSilent).length ∧
      (FanCurve.loadPreset FanCurve.presetSilent).Sorted FanCurve.ptLE ∧
      ∀ p ∈ FanCurve.loadPreset FanCurve.presetSilent, FanCurve.inRange p) ∧
    (2 ≤ (FanCurve.loadPreset FanCurve.presetBalanced).length ∧
      (FanCurve.loadPreset FanCurve.presetBalanced).Sorted FanCurve.ptLE ∧
      ∀ p ∈ FanCurve.loadPreset FanCurve.presetBalanced, FanCurve.inRange p) ∧
    (2 ≤ (FanCurve.loadPreset FanCurve.presetPerformance).length ∧
      (FanCurve.loadPreset FanCurve.presetPerformance).Sorted FanCurve.ptLE ∧
      ∀ p ∈ FanCurve.loadPreset FanCurve.presetPerformance, FanCurve.inRange p) ∧
    (2 ≤ (FanCurve.loadPreset FanCurve.presetAggressive).length ∧
      (FanCurve.loadPreset FanCurve.presetAggressive).Sorted FanCurve.ptLE ∧
      ∀ p ∈ FanCurve.loadPreset FanCurve.presetAggressive, FanCurve.inRange p) := by
  refine ⟨?_, ?_, ?_, ?_, by decide, by decide, by decide, by decide⟩
  · intro pts idx t s
    refine ⟨?_, ?_, ?_⟩
    · intro h2
      unfold FanCurve.updatePoint
      split
      · exact h2
      split
      · exact h2
      · rw [FanCurve.sortByTemp_length, List.length_set]; exact h2
    · intro hs
      unfold FanCurve.updatePoint
      split
      · exact hs
      split
      · exact hs
      · exact FanCurve.sortByTemp_sorted _
    · intro hr
      unfold FanCurve.updatePoint
      split
      · exact hr
      split
      · exact hr
      case isFalse hv1 hv2 =>
        intro p hp
        rcases FanCurve.mem_sortByTemp.mp hp with hp'
        rcases List.mem_or_eq_of_mem_set hp' with hmem | heq
        · exact hr p hmem
        · subst heq
          refine ⟨by omega, by omega, by omega, by omega⟩
  · intro pts idx
    refine ⟨?_, ?_, ?_⟩
    · intro h2
      unfold FanCurve.removePoint
      split
      · exact h2
      case isFalse hlen =>
        rw [FanCurve.sortByTemp_length]
        have := FanCurve.length_eraseIdx_ge pts idx
        omega
    · intro hs
      unfold FanCurve.removePoint
      split
      · exact hs
      · exact FanCurve.sortByTemp_sorted _
    · intro hr
      unfold FanCurve.removePoint
      split
      · exact hr
      · intro p hp
        exact hr p ((pts.eraseIdx_sublist idx).subset (FanCurve.mem_sortByTemp.mp hp))
  · intro pts
    constructor
    · intro h2
      unfold FanCurve.addPoint
      rw [FanCurve.sortByTemp_length, List.length_append]
      simp; omega
    · exact FanCurve.sortByTemp_sorted _
  · intro pts idx hle
    unfold FanCurve.removePoint
    rw [if_pos hle]

/-- Witness for C10 (amended): removing from the initial six points keeps
at least two sorted points. -/
theorem c10_editor_invariants_witness :
    2 ≤ (FanCurve.removePoint FanCurve.curvePoints 0).length :=
  (c10_editor_invariants.2.1 FanCurve.curvePoints 0).1 (by decide)

/-- C4 counterexample: with the configured points, the spec's curve gives
25 at T = 44, but the monitoring loop applies the legacy bracket speed 30
there, and `apply_curve` issues no vendor command at all — the configured
FanCurve does not determine the applied fan speed. -/
theorem c4_curve_not_applied :
    FanCurve.curveEval FanCurve.curvePoints 44 = 25 ∧
    (DellFan.autoMonitoringIteration ⟨true, none, none⟩
        ⟨some 45, true, ["CPU1 Temp | 44 degrees C"], fun _ => true⟩).decision
      = some (.manual 30) ∧
    ¬ (DellFan.autoMonitoringIteration ⟨true, none, none⟩
        ⟨some 45, true, ["CPU1 Temp | 44 degrees C"], fun _ => true⟩).decision
      = some (.manual (FanCurve.curveEval FanCurve.curvePoints 44)) ∧
    (FanCurve.applyCurve FanCurve.curvePoints).calls = [] := by
  decide

/-- C4 amended: the spec-modelled evaluation of the configured FanCurve
points satisfies curve(20)=10, curve(35)=25, curve(80)=100, but the program
never evaluates the curve to drive the fans: `apply_curve` only logs the
sorted points and issues no vendor command, and the monitoring loop's
Manual branch always applies the legacy bracket speed. -/
theorem c4_configured_curve_values :
    FanCurve.curveEval FanCurve.curvePoints 20 = 10 ∧
    FanCurve.curveEval FanCurve.curvePoints 35 = 25 ∧
    FanCurve.curveEval FanCurve.curvePoints 80 = 100 ∧
    (∀ pts : List FanCurve.Point, (FanCurve.applyCurve pts).calls = []) ∧
    (∀ pts : List FanCurve.Point, 2 ≤ pts.length →
      (FanCurve.applyCurve pts).ok = true ∧
      (FanCurve.applyCurve pts).loggedPoints = FanCurve.sortByTemp pts) ∧
    (∀ (s : DellFan.UIState) (env : DellFan.Env) (t : Nat) (h : Int),
      env.thresholdVal = some h → env.readOk = true →
      DellFan.parseTempCPU env.stdoutLines = some t → ¬ (t : Int) > h →
      (DellFan.autoMonitoringIteration s env).decision
        = some (.manual (DellFan.legacyCurve t))) := by
  refine ⟨by decide, by decide, by decide, ?_, ?_, ?_⟩
  · intro pts
    unfold FanCurve.applyCurve
    split <;> rfl
  · intro pts h2
    unfold FanCurve.applyCurve
    split
    case isTrue hlt => omega
    · exact ⟨rfl, rfl⟩
  · intro s env t h hth hro hp hle
    rw [DellFan.autoIter_cool s env t h hth hro hp hle]

/-- Witness for C4 (amended): the concrete cool iteration at T = 44 applies
the legacy bracket speed. -/
theorem c4_configured_curve_values_witness :
    (DellFan.autoMonitoringIteration ⟨true, none, none⟩
        ⟨some 45, true, ["CPU1 Temp | 44 degrees C"], fun _ => true⟩).decision
      = some (.manual (DellFan.legacyCurve 44)) :=
  c4_configured_curve_values.2.2.2.2.2 ⟨true, none, none⟩
    ⟨some 45, true, ["CPU1 Temp | 44 degrees C"], fun _ => true⟩ 44 45 rfl rfl
    (by decide) (by decide)

